import Mathlib

/-!
Verification of media_joiner_bot: a Telegram bot that receives a media message
(photo, video or document), waits for the sender's next text message, and
re-sends the media with that text as caption.

The handler code is embedded from `src/handlers/media.py` and
`src/handlers/start.py`.  The wait/correlate core (Waiter, WaitRegistry and the
Listen middleware) lives in the external `aiostep` package, whose source is not
part of this repository; those parts are modelled from the specification and
are marked `Modelled from the spec:` in their doc comments.
-/

namespace MediaJoiner

/-! ## Data model: Telegram messages as the handlers consume them -/

/-- A Telegram document attachment, with the fields `handle_document` and
`convert_document_to_photo` read: `file_id` and the optional `file_name`. -/
structure Document where
  file_id : String
  file_name : Option String
deriving DecidableEq, Repr

/-- An inbound Telegram message, restricted to the fields the handlers read:
the sender id (`message.from_user.id`), the optional text, the list of photo
sizes (`message.photo`, empty list standing for Python `None`/empty), the
optional video file id, and the optional document. -/
structure Msg where
  from_user_id : Nat
  text : Option String
  photo : List String
  video : Option String
  document : Option Document
deriving DecidableEq, Repr

/-! ## Python string helpers used by the handlers -/

/-- Python `str.isspace` on a single character: the exact CPython whitespace
set (the characters `str.strip()` with no argument removes) — tab through
carriage return (U+0009–U+000D), the separators U+001C–U+001F, space, NEL
(U+0085), NBSP (U+00A0), Ogham space mark (U+1680), the Zs spaces
U+2000–U+200A, line/paragraph separator (U+2028/U+2029), narrow NBSP
(U+202F), medium mathematical space (U+205F) and ideographic space
(U+3000). -/
def pyIsSpace (c : Char) : Bool :=
  (0x09 ≤ c.toNat && c.toNat ≤ 0x0d) ||
  (0x1c ≤ c.toNat && c.toNat ≤ 0x20) ||
  c.toNat == 0x85 || c.toNat == 0xa0 || c.toNat == 0x1680 ||
  (0x2000 ≤ c.toNat && c.toNat ≤ 0x200a) ||
  c.toNat == 0x2028 || c.toNat == 0x2029 || c.toNat == 0x202f ||
  c.toNat == 0x205f || c.toNat == 0x3000

/-- Python `str.strip()` on a list of characters: drop whitespace from both
ends. -/
def pyStripList (l : List Char) : List Char :=
  ((l.dropWhile pyIsSpace).reverse.dropWhile pyIsSpace).reverse

/-- Python `str.strip()` with no argument: surrounding whitespace removed. -/
def pyStrip (s : String) : String :=
  String.mk (pyStripList s.data)

/-- Python truthiness of a string: non-empty. -/
def pyTruthyStr (s : String) : Bool :=
  !s.data.isEmpty

/-- Python `str.lower()` (ASCII case mapping), character by character. -/
def pyLower (s : String) : String :=
  String.mk (s.data.map Char.toLower)

/-- Python `str.endswith(suffix)`. -/
def pyEndsWith (s suffix : String) : Bool :=
  List.isSuffixOf suffix.data s.data

/-! ## Messages table (`MESSAGES` in src/handlers/media.py) -/

def MSG_photo_received : String := "عکست رو دریافت کردم!\nحالا متنت رو بفرست:"

def MSG_video_received : String := "ویدیوت رو دریافت کردم!\nحالا متنت رو بفرست:"

def MSG_document_received : String := "فایلت رو دریافت کردم!\nحالا متنت رو بفرست:"

def MSG_timeout : String := "وقتت تموم شد!!!"

def MSG_invalid_input : String := "فقط متن باید میفرستادی!!!\nحالا همه‌ی مراحل رو از اول انجام بده"

/-! ## Outbound effects of a handler run

Each Telegram API call the handler makes is recorded as one `Action`, in
order.  `reply` is `message.reply`, `answer` is `message.answer` /
`response.answer`, and the three `answer*` media actions carry the file id and
the caption sent with it. -/

inductive Action where
  | reply (t : String)
  | answer (t : String)
  | answerPhoto (file_id caption : String)
  | answerVideo (file_id caption : String)
  | answerDocument (file_id caption : String)
deriving DecidableEq, Repr

/-! ## The result of `await wait_for(user_id, timeout=WAIT_TIMEOUT)`

As consumed by `handle_media_with_caption` (src/handlers/media.py): a normal
return binds `response : Message`; a timeout is signalled by raising
`TimeoutError`, caught by the `except TimeoutError` clause; any other
exception is caught by the `except Exception` clause.  There is no normal
return carrying a timeout marker. -/

inductive WaitForResult where
  | ok (resp : Msg)
  | exnTimeout
  | exnOther
deriving DecidableEq, Repr

/-- The ordinary (non-exception) return value of `wait_for` as the caller
binds it: `response: Message = await wait_for(...)`.  The two exception
outcomes produce no ordinary return value at all. -/
def ordinaryReturn : WaitForResult → Option Msg
  | WaitForResult.ok resp => some resp
  | WaitForResult.exnTimeout => none
  | WaitForResult.exnOther => none

/-! ## Embedding of `handle_media_with_caption` (src/handlers/media.py)

The function is split at its `try` block.  `phase1` is the media-extraction
part before `wait_for`: it either returns early (conversion failure or
unsupported media type) or proceeds with the acknowledgment actions emitted so
far and the extracted `media_file_id`.  `waitPhase` is the `try`/`except`
block around `wait_for`.  `convert_document_to_photo` performs Telegram I/O
(download, temporary re-upload, delete); it is abstracted by its returned
value `convertResult : Option String` (`none` standing for the Python `None`
returned on failure).  A `none` result of the whole handler models an
uncaught `AttributeError` (media field absent), which the router filters make
unreachable. -/

inductive Phase1 where
  | earlyReturn (acts : List Action)
  | proceed (acts : List Action) (media_file_id : String)
deriving DecidableEq, Repr

def phase1 (message : Msg) (media_type : String) (convertResult : Option String) :
    Option Phase1 :=
  if media_type == "photo" then
    match message.photo.getLast? with
    | some fid => some (Phase1.proceed [Action.answer MSG_photo_received] fid)
    | none =>
      match convertResult with
      | none => some (Phase1.earlyReturn [Action.reply MSG_invalid_input])
      | some fid =>
        if !pyTruthyStr fid then
          some (Phase1.earlyReturn [Action.reply MSG_invalid_input])
        else
          some (Phase1.proceed [Action.answer MSG_photo_received] fid)
  else if media_type == "video" then
    match message.video with
    | some fid => some (Phase1.proceed [Action.answer MSG_video_received] fid)
    | none => none
  else if media_type == "document" then
    match message.document with
    | some d => some (Phase1.proceed [Action.answer MSG_document_received] d.file_id)
    | none => none
  else
    some (Phase1.earlyReturn [])

/-- The validity check `not response.text or not response.text.strip()`,
negated: the response text is truthy and its strip is truthy. -/
def pyTruthyText : Option String → Bool
  | none => false
  | some s => pyTruthyStr s && pyTruthyStr (pyStrip s)

/-- The `try` block of `handle_media_with_caption`: await the user's text
response, validate it, and send the media with the stripped caption; on
`TimeoutError` reply with the timeout message, on any other exception reply
with the invalid-input message. -/
def waitPhase (media_type media_file_id : String) (waitResult : WaitForResult) :
    List Action :=
  match waitResult with
  | WaitForResult.ok response =>
    if !pyTruthyText response.text then
      [Action.reply MSG_invalid_input]
    else
      let caption := pyStrip (response.text.getD "")
      if media_type == "photo" then
        [Action.answerPhoto media_file_id caption]
      else if media_type == "video" then
        [Action.answerVideo media_file_id caption]
      else
        [Action.answerDocument media_file_id caption]
  | WaitForResult.exnTimeout => [Action.reply MSG_timeout]
  | WaitForResult.exnOther => [Action.reply MSG_invalid_input]

/-- The captioned re-send action the valid branch of `waitPhase` emits for a
media type: `answer_photo`, `answer_video` or `answer_document` with the
stored file id and the stripped caption. -/
def sendMediaAction (media_type media_file_id caption : String) : Action :=
  if media_type == "photo" then
    Action.answerPhoto media_file_id caption
  else if media_type == "video" then
    Action.answerVideo media_file_id caption
  else
    Action.answerDocument media_file_id caption

/-- `handle_media_with_caption(message, media_type, bot)` as the ordered list
of Telegram calls it makes, parameterised by the abstracted results of
`convert_document_to_photo` and `wait_for`. -/
def handle_media_with_caption (message : Msg) (media_type : String)
    (convertResult : Option String) (waitResult : WaitForResult) :
    Option (List Action) :=
  match phase1 message media_type convertResult with
  | none => none
  | some (Phase1.earlyReturn acts) => some acts
  | some (Phase1.proceed acts fid) =>
    some (acts ++ waitPhase media_type fid waitResult)

/-! ## Embedding of `handle_document` (src/handlers/media.py) -/

/-- The image-detection branch of `handle_document`: the document has a truthy
(non-`None`, non-empty) `file_name` whose lowercase form ends with `.jpg`,
`.jpeg` or `.png`. -/
def is_image_file_name (fn : Option String) : Bool :=
  match fn with
  | none => false
  | some s =>
    if pyTruthyStr s then
      let file_name := pyLower s
      pyEndsWith file_name ".jpg" || pyEndsWith file_name ".jpeg" ||
        pyEndsWith file_name ".png"
    else
      false

/-- `handle_document(message)`: dispatch image-named documents to the photo
path (which converts them), everything else to the document path. -/
def handle_document (message : Msg) (convertResult : Option String)
    (waitResult : WaitForResult) : Option (List Action) :=
  match message.document with
  | none => none
  | some d =>
    if is_image_file_name d.file_name then
      handle_media_with_caption message "photo" convertResult waitResult
    else
      handle_media_with_caption message "document" convertResult waitResult

/-! ## Embedding of the `/start` handler (src/handlers/start.py) -/

/-- Python `html.escape(s)` (quote=True): the five HTML-special characters are
replaced by entity references, every other character is kept. -/
def html_escape_char (c : Char) : List Char :=
  if c = '&' then "&amp;".data
  else if c = '<' then "&lt;".data
  else if c = '>' then "&gt;".data
  else if c = '"' then "&quot;".data
  else if c = '\'' then "&#x27;".data
  else [c]

/-- Python `html.escape` applied to a whole string. -/
def html_escape (s : String) : String :=
  String.mk (s.data.flatMap html_escape_char)

/-- The greeting text of the `/start` handler, with the sender's first name
passed through `html.escape` (the bot runs with HTML parse mode,
src/main.py `initialize_bot`). -/
def start_greeting (first_name : String) : String :=
  "👋 سلام " ++ html_escape first_name ++
    "\n\n📸 میتونی الان یه عکس یا یه ویدیو برام بفرستی 🎥"

/-- `start(message)`: the two `message.answer` calls, in order. -/
def start (first_name : String) : List Action :=
  [Action.answer (start_greeting first_name),
   Action.answer "Powered by @farazom"]

/-! ## The wait/correlate core

The Waiter, WaitRegistry and Listen middleware are provided by the external
`aiostep` package used in src/main.py (`dp.message.outer_middleware(Listen())`)
and src/handlers/media.py (`await wait_for(user_id, timeout=WAIT_TIMEOUT)`);
their source is not part of this repository, so they are modelled from the
specification. -/

/-- Modelled from the spec: the result slot of a Waiter — empty, or exactly
one of the terminal states fulfilled(message), expired, cancelled (aiostep's
Waiter is not in src/). -/
inductive WaiterState where
  | empty
  | fulfilled (m : Msg)
  | expired
  | cancelled
deriving DecidableEq, Repr

/-- A Waiter state is terminal when it is no longer empty. -/
def WaiterState.isTerminal : WaiterState → Bool
  | WaiterState.empty => false
  | _ => true

/-- Modelled from the spec: the terminal outcome observed by the suspended
caller of `wait_for` — one of Delivered(message), TimedOut, Cancelled. -/
inductive Outcome where
  | Delivered (m : Msg)
  | TimedOut
  | Cancelled
deriving DecidableEq, Repr

/-- Modelled from the spec: one of the three transition attempts that may be
made on a Waiter — `resolve(message)` by the intercept middleware, `expire()`
by the timeout mechanism, `cancel()` by the owning handler. -/
inductive Attempt where
  | resolve (m : Msg)
  | expire
  | cancel
deriving DecidableEq, Repr

/-- Modelled from the spec: an atomic transition attempt on a Waiter.  Each of
`resolve`/`expire`/`cancel` succeeds only if the state is still empty and
returns whether the transition occurred; a losing attempt leaves the state
unchanged. -/
def applyAttempt (s : WaiterState) (a : Attempt) : WaiterState × Bool :=
  match s, a with
  | WaiterState.empty, Attempt.resolve m => (WaiterState.fulfilled m, true)
  | WaiterState.empty, Attempt.expire => (WaiterState.expired, true)
  | WaiterState.empty, Attempt.cancel => (WaiterState.cancelled, true)
  | s, _ => (s, false)

/-- Modelled from the spec: a race of transition attempts, as the sequence of
their atomic commits (concurrency reduced to an arbitrary interleaving).
Returns the final state and how many attempts succeeded. -/
def runAttempts (s : WaiterState) : List Attempt → WaiterState × Nat
  | [] => (s, 0)
  | a :: rest =>
    let (s', ok) := applyAttempt s a
    let (s'', n) := runAttempts s' rest
    (s'', (if ok then 1 else 0) + n)

/-- The outcome a terminal Waiter state reports to the suspended caller. -/
def outcomeOf : WaiterState → Option Outcome
  | WaiterState.empty => none
  | WaiterState.fulfilled m => some (Outcome.Delivered m)
  | WaiterState.expired => some Outcome.TimedOut
  | WaiterState.cancelled => some Outcome.Cancelled

/-- The outcome each transition attempt produces when it wins the race. -/
def attemptOutcome : Attempt → Outcome
  | Attempt.resolve m => Outcome.Delivered m
  | Attempt.expire => Outcome.TimedOut
  | Attempt.cancel => Outcome.Cancelled

/-! ## The WaitRegistry, modelled from the spec -/

/-- Modelled from the spec: the WaitRegistry's mapping from owner key to its
Waiter, as an association list (aiostep's registry is not in src/). -/
abbrev Registry : Type := List (Nat × WaiterState)

/-- Look up the Waiter registered for an owner key. -/
def lookupW (r : Registry) (k : Nat) : Option WaiterState :=
  (List.find? (fun e => e.1 == k) r).map (fun e => e.2)

/-- Remove every entry for an owner key. -/
def removeKey (r : Registry) (k : Nat) : Registry :=
  List.filter (fun e => !(e.1 == k)) r

/-- Modelled from the spec: the registration step of `wait_for(ownerKey,
timeout)` — if an active Waiter already exists for the key, fail immediately
with `AlreadyWaiting`, never replacing or queueing; otherwise atomically
register a fresh empty Waiter. -/
inductive RegisterResult where
  | alreadyWaiting
  | registered (r : Registry)

def registerWait (r : Registry) (k : Nat) : RegisterResult :=
  match lookupW r k with
  | some _ => RegisterResult.alreadyWaiting
  | none => RegisterResult.registered ((k, WaiterState.empty) :: r)

/-- Modelled from the spec: a transition attempt against the Waiter
registered for a key — look up the Waiter and attempt the atomic transition;
on success the entry is removed from the mapping (terminal transition) and
the terminal outcome is reported to the suspended caller; a losing attempt
leaves the registry unchanged and reports nothing. -/
def attemptKey (r : Registry) (k : Nat) (a : Attempt) : Registry × Option Outcome :=
  match lookupW r k with
  | some w =>
    let (w', ok) := applyAttempt w a
    if ok then (removeKey r k, outcomeOf w') else (r, none)
  | none => (r, none)

/-- Modelled from the spec: `try_deliver(ownerKey, message)` — look up an
active Waiter for the key and attempt `resolve`; on success the caller
observes `Delivered(message)`; the returned option is `none` iff the message
was not consumed. -/
def try_deliver (r : Registry) (k : Nat) (m : Msg) : Registry × Option Outcome :=
  attemptKey r k (Attempt.resolve m)

/-- Modelled from the spec: the timeout mechanism firing for a key — attempt
`expire` on its Waiter; a timer firing after the Waiter resolved is a
no-op. -/
def expireKey (r : Registry) (k : Nat) : Registry × Option Outcome :=
  attemptKey r k Attempt.expire

/-- Modelled from the spec: explicit cancellation of a key's wait — attempt
`cancel` on its Waiter. -/
def cancelKey (r : Registry) (k : Nat) : Registry × Option Outcome :=
  attemptKey r k Attempt.cancel

/-! ## The intercept middleware, modelled from the spec -/

/-- Modelled from the spec: the routing decision of the Listen middleware —
`Suppressed` when the message was consumed by a Waiter, `Continue` when it
proceeds to normal handler matching. -/
inductive RoutingDecision where
  | Suppressed
  | Continue
deriving DecidableEq, Repr

/-- Modelled from the spec: `on_message` of the intercept middleware,
installed as an outer middleware in src/main.py `setup_middlewares` so it
runs before any route matching: extract the sender's owner key, call
`try_deliver`, and suppress normal routing iff the message was consumed. -/
def on_message (r : Registry) (m : Msg) : Registry × RoutingDecision :=
  let (r', out) := try_deliver r m.from_user_id m
  (r', if out.isSome then RoutingDecision.Suppressed else RoutingDecision.Continue)

/-- The registry invariant: a Waiter is reachable from the registry only
while in the empty state, and each key has at most one entry. -/
def RegistryInv (r : Registry) : Prop :=
  (∀ e ∈ r, e.2 = WaiterState.empty) ∧ (List.map Prod.fst r).Nodup

/-! ## Helper lemmas -/

theorem dropWhile_forall_iff {p : Char → Bool} {l : List Char} :
    (∀ c ∈ l.dropWhile p, p c = true) ↔ (∀ c ∈ l, p c = true) := by
  constructor
  · intro h c hc
    rw [← List.takeWhile_append_dropWhile p l] at hc
    rcases List.mem_append.mp hc with h1 | h2
    · exact List.mem_takeWhile_imp h1
    · exact h c h2
  · intro h c hc
    exact h c ((List.dropWhile_sublist p).subset hc)

theorem pyStripList_eq_nil_iff (l : List Char) :
    pyStripList l = [] ↔ ∀ c ∈ l, pyIsSpace c = true := by
  unfold pyStripList
  rw [List.reverse_eq_nil_iff, List.dropWhile_eq_nil_iff]
  constructor
  · intro h
    apply dropWhile_forall_iff.mp
    intro c hc
    exact h c (List.mem_reverse.mpr hc)
  · intro h c hc
    exact h c ((List.dropWhile_sublist pyIsSpace).subset (List.mem_reverse.mp hc))

theorem pyStripList_ne_nil_iff (l : List Char) :
    pyStripList l ≠ [] ↔ ∃ c ∈ l, pyIsSpace c = false := by
  rw [ne_eq, pyStripList_eq_nil_iff]
  push_neg
  simp only [Bool.not_eq_true]

theorem pyTruthyText_iff (t : Option String) :
    pyTruthyText t = true ↔
      ∃ s, t = some s ∧ ∃ c ∈ s.data, pyIsSpace c = false := by
  cases t with
  | none => simp [pyTruthyText]
  | some s =>
    have hdata : (pyStrip s).data = pyStripList s.data := rfl
    simp only [pyTruthyText, pyTruthyStr, Bool.and_eq_true, Bool.not_eq_true',
      Option.some.injEq, hdata]
    constructor
    · rintro ⟨h1, h2⟩
      have h3 : pyStripList s.data ≠ [] := by
        simpa [List.isEmpty_eq_false] using h2
      exact ⟨s, rfl, (pyStripList_ne_nil_iff s.data).mp h3⟩
    · rintro ⟨s2, hss, c, hc, hp⟩
      cases hss
      constructor
      · rw [List.isEmpty_eq_false]
        intro hnil
        rw [hnil] at hc
        exact absurd hc (List.not_mem_nil c)
      · have h3 : pyStripList s.data ≠ [] :=
          (pyStripList_ne_nil_iff _).mpr ⟨c, hc, hp⟩
        simpa [List.isEmpty_eq_false] using h3

theorem applyAttempt_terminal {s : WaiterState} (h : s.isTerminal = true)
    (a : Attempt) : applyAttempt s a = (s, false) := by
  cases s with
  | empty => simp [WaiterState.isTerminal] at h
  | fulfilled m => cases a <;> rfl
  | expired => cases a <;> rfl
  | cancelled => cases a <;> rfl

theorem runAttempts_terminal {s : WaiterState} (h : s.isTerminal = true)
    (l : List Attempt) : runAttempts s l = (s, 0) := by
  induction l with
  | nil => rfl
  | cons a rest ih =>
    simp [runAttempts, applyAttempt_terminal h, ih]

theorem applyAttempt_empty_succeeds (a : Attempt) :
    (applyAttempt WaiterState.empty a).2 = true ∧
      (applyAttempt WaiterState.empty a).1.isTerminal = true := by
  cases a <;> exact ⟨rfl, rfl⟩

theorem lookupW_removeKey_self (r : Registry) (k : Nat) :
    lookupW (removeKey r k) k = none := by
  unfold lookupW removeKey
  rw [Option.map_eq_none', List.find?_eq_none]
  intro e he
  have := (List.mem_filter.mp he).2
  simpa using this

theorem find?_filter_ne (r : Registry) (k k' : Nat) (h : k' ≠ k) :
    List.find? (fun e => e.1 == k') (List.filter (fun e => !(e.1 == k)) r)
      = List.find? (fun e => e.1 == k') r := by
  induction r with
  | nil => rfl
  | cons e r ih =>
    by_cases he : e.1 = k
    · rw [List.find?_cons_of_neg _ (by
        simp only [beq_eq_false_iff_ne, ne_eq, he, Bool.not_eq_true]
        exact fun hk => h hk.symm)]
      rw [List.filter_cons_of_neg (by simp [he])]
      exact ih
    · rw [List.filter_cons_of_pos (by simp [he])]
      by_cases hk' : e.1 = k'
      · rw [List.find?_cons_of_pos _ (by simp [hk']),
          List.find?_cons_of_pos _ (by simp [hk'])]
      · rw [List.find?_cons_of_neg _ (by simp [hk']),
          List.find?_cons_of_neg _ (by simp [hk'])]
        exact ih

theorem lookupW_removeKey_ne (r : Registry) (k k' : Nat) (h : k' ≠ k) :
    lookupW (removeKey r k) k' = lookupW r k' := by
  unfold lookupW removeKey
  rw [find?_filter_ne r k k' h]

theorem lookupW_eq_none_iff (r : Registry) (k : Nat) :
    lookupW r k = none ↔ k ∉ List.map Prod.fst r := by
  unfold lookupW
  rw [Option.map_eq_none', List.find?_eq_none]
  constructor
  · intro h hk
    rcases List.mem_map.mp hk with ⟨e, he, hek⟩
    exact h e he (by simp [hek])
  · intro h e he hek
    exact h (List.mem_map.mpr ⟨e, he, by simpa using hek⟩)

theorem lookupW_mem (r : Registry) (k : Nat) (w : WaiterState)
    (h : lookupW r k = some w) : (k, w) ∈ r := by
  unfold lookupW at h
  rw [Option.map_eq_some'] at h
  rcases h with ⟨e, he, hw⟩
  have h1 := List.find?_some he
  have h2 := List.mem_of_find?_eq_some he
  have h3 : e.1 = k := by simpa using h1
  have : e = (k, w) := by
    cases e
    simp only [Prod.mk.injEq]
    exact ⟨h3, hw⟩
  rw [← this]
  exact h2

theorem RegistryInv_removeKey {r : Registry} (h : RegistryInv r) (k : Nat) :
    RegistryInv (removeKey r k) := by
  obtain ⟨hall, hnodup⟩ := h
  constructor
  · intro e he
    exact hall e (List.mem_filter.mp he).1
  · exact List.Nodup.sublist (List.Sublist.map Prod.fst (List.filter_sublist r)) hnodup

theorem RegistryInv_register {r : Registry} (h : RegistryInv r) (k : Nat)
    (hk : lookupW r k = none) :
    RegistryInv ((k, WaiterState.empty) :: r) := by
  obtain ⟨hall, hnodup⟩ := h
  constructor
  · intro e he
    rcases List.mem_cons.mp he with he1 | he2
    · rw [he1]
    · exact hall e he2
  · rw [List.map_cons, List.nodup_cons]
    exact ⟨(lookupW_eq_none_iff r k).mp hk, hnodup⟩

theorem lookupW_empty_of_inv {r : Registry} (hInv : RegistryInv r) (k : Nat)
    (w : WaiterState) (h : lookupW r k = some w) : w = WaiterState.empty :=
  hInv.1 (k, w) (lookupW_mem r k w h)

theorem attemptKey_of_lookup_empty (r : Registry) (k : Nat) (a : Attempt)
    (h : lookupW r k = some WaiterState.empty) :
    attemptKey r k a = (removeKey r k, some (attemptOutcome a)) := by
  unfold attemptKey
  rw [h]
  cases a <;> rfl

theorem attemptKey_of_lookup_none (r : Registry) (k : Nat) (a : Attempt)
    (h : lookupW r k = none) : attemptKey r k a = (r, none) := by
  unfold attemptKey
  rw [h]

theorem attemptKey_cleanup (r : Registry) (k : Nat) (a : Attempt)
    (hInv : RegistryInv r) :
    ((attemptKey r k a).2.isSome = true →
      lookupW (attemptKey r k a).1 k = none ∧
      registerWait (attemptKey r k a).1 k =
        RegisterResult.registered ((k, WaiterState.empty) :: (attemptKey r k a).1)) ∧
    RegistryInv (attemptKey r k a).1 := by
  cases hlk : lookupW r k with
  | none =>
    rw [attemptKey_of_lookup_none r k a hlk]
    exact ⟨fun hs => absurd hs (by simp), hInv⟩
  | some w =>
    have hw : w = WaiterState.empty := lookupW_empty_of_inv hInv k w hlk
    rw [hw] at hlk
    rw [attemptKey_of_lookup_empty r k a hlk]
    refine ⟨fun _ => ⟨lookupW_removeKey_self r k, ?_⟩, RegistryInv_removeKey hInv k⟩
    unfold registerWait
    rw [lookupW_removeKey_self r k]

theorem registerWait_inv {r : Registry} (hInv : RegistryInv r) (k : Nat)
    (r' : Registry) (h : registerWait r k = RegisterResult.registered r') :
    RegistryInv r' ∧ lookupW r' k = some WaiterState.empty := by
  unfold registerWait at h
  cases hlk : lookupW r k with
  | some w => rw [hlk] at h; exact absurd h (by simp)
  | none =>
    rw [hlk] at h
    have hr : r' = (k, WaiterState.empty) :: r := by
      cases h
      rfl
    subst hr
    refine ⟨RegistryInv_register hInv k hlk, ?_⟩
    unfold lookupW
    rw [List.find?_cons_of_pos _ (by simp)]
    rfl

theorem html_escape_char_no_markup (a c : Char)
    (h : c ∈ html_escape_char a) : c ≠ '<' ∧ c ≠ '>' := by
  unfold html_escape_char at h
  split_ifs at h with h1 h2 h3 h4 h5
  · rw [show ("&amp;".data) = ['&', 'a', 'm', 'p', ';'] from rfl] at h
    fin_cases h <;> decide
  · rw [show ("&lt;".data) = ['&', 'l', 't', ';'] from rfl] at h
    fin_cases h <;> decide
  · rw [show ("&gt;".data) = ['&', 'g', 't', ';'] from rfl] at h
    fin_cases h <;> decide
  · rw [show ("&quot;".data) = ['&', 'q', 'u', 'o', 't', ';'] from rfl] at h
    fin_cases h <;> decide
  · rw [show ("&#x27;".data) = ['&', '#', 'x', '2', '7', ';'] from rfl] at h
    fin_cases h <;> decide
  · rcases List.mem_singleton.mp h with rfl
    exact ⟨h2, h3⟩

/-! ## Claim theorems -/

/-- C1: interception happens strictly before route matching — an inbound
message from a user with an active (empty-state) Waiter is delivered to that
Waiter as `Delivered(message)` and the middleware decision is `Suppressed`,
so the message never reaches normal route dispatch; the Waiter's entry is
removed from the registry. -/
theorem C1_intercept_before_route_matching (r : Registry) (m : Msg)
    (h : lookupW r m.from_user_id = some WaiterState.empty) :
    (try_deliver r m.from_user_id m).2 = some (Outcome.Delivered m) ∧
    (on_message r m).2 = RoutingDecision.Suppressed ∧
    (on_message r m).1 = removeKey r m.from_user_id := by
  have hd : try_deliver r m.from_user_id m =
      (removeKey r m.from_user_id, some (Outcome.Delivered m)) :=
    attemptKey_of_lookup_empty r m.from_user_id (Attempt.resolve m) h
  refine ⟨by rw [hd], ?_, ?_⟩
  · unfold on_message
    rw [hd]
    rfl
  · unfold on_message
    rw [hd]

/-- Witness for C1 at a concrete registry and message. -/
theorem C1_witness :
    (on_message [(5, WaiterState.empty)]
        (Msg.mk 5 (some "hi") [] none none)).2 = RoutingDecision.Suppressed :=
  (C1_intercept_before_route_matching [(5, WaiterState.empty)]
    (Msg.mk 5 (some "hi") [] none none) rfl).2.1

/-- C2: exactly-once resolution — starting from an empty Waiter, any
non-empty race of resolve/expire/cancel attempts has exactly one successful
transition, the final state is the one set by the first attempt (so losing
attempts, including a late-firing timer, have no observable effect), and the
awaiting caller observes exactly the outcome of the winning attempt; for an
arbitrary race at most one attempt ever succeeds. -/
theorem C2_exactly_once_resolution (l : List Attempt) (a : Attempt)
    (rest : List Attempt) :
    (runAttempts WaiterState.empty l).2 ≤ 1 ∧
    (runAttempts WaiterState.empty (a :: rest)).2 = 1 ∧
    (runAttempts WaiterState.empty (a :: rest)).1 =
      (applyAttempt WaiterState.empty a).1 ∧
    outcomeOf (runAttempts WaiterState.empty (a :: rest)).1 =
      some (attemptOutcome a) := by
  have key : ∀ (a0 : Attempt) (r0 : List Attempt),
      runAttempts WaiterState.empty (a0 :: r0) =
        ((applyAttempt WaiterState.empty a0).1, 1) := by
    intro a0 r0
    have hsucc := applyAttempt_empty_succeeds a0
    have hterm := runAttempts_terminal hsucc.2 r0
    cases a0 <;> simp [runAttempts, applyAttempt] <;>
      simp [applyAttempt] at hterm <;> simp [hterm]
  refine ⟨?_, ?_, ?_, ?_⟩
  · cases l with
    | nil => simp [runAttempts]
    | cons a0 r0 => rw [key a0 r0]
  · rw [key a rest]
  · rw [key a rest]
  · rw [key a rest]
    cases a <;> rfl

/-- Witness for C2: a concrete race where the timer fires first and a later
cancel attempt loses with no effect. -/
theorem C2_witness :
    (runAttempts WaiterState.empty [Attempt.expire, Attempt.cancel]).2 = 1 ∧
    (runAttempts WaiterState.empty [Attempt.expire, Attempt.cancel]).1 =
      WaiterState.expired := by
  have h := C2_exactly_once_resolution [] Attempt.expire [Attempt.cancel]
  exact ⟨h.2.1, h.2.2.1.trans rfl⟩

/-- C3: at-most-one waiter per key — a `wait_for` registration for a key
that already holds an unresolved (empty-state) Waiter fails immediately with
`AlreadyWaiting`; it never produces a registered (replaced or queued)
registry. -/
theorem C3_already_waiting (r : Registry) (k : Nat)
    (h : lookupW r k = some WaiterState.empty) :
    registerWait r k = RegisterResult.alreadyWaiting ∧
    ∀ r', registerWait r k ≠ RegisterResult.registered r' := by
  have h1 : registerWait r k = RegisterResult.alreadyWaiting := by
    unfold registerWait
    rw [h]
  refine ⟨h1, fun r' hr => ?_⟩
  rw [h1] at hr
  exact RegisterResult.noConfusion hr

/-- Witness for C3: two registrations for the same key in immediate
succession, the second fails with `AlreadyWaiting`. -/
theorem C3_witness :
    registerWait [(7, WaiterState.empty)] 7 = RegisterResult.alreadyWaiting :=
  (C3_already_waiting [(7, WaiterState.empty)] 7 rfl).1

/-- C5: registry cleanup on terminal transition — under the registry
invariant, a key is held only while its Waiter is empty; whenever a
deliver/expire/cancel attempt succeeds (the Waiter reaches a terminal
state), the key's entry is removed and a subsequent `wait_for` registration
for that key proceeds immediately; all operations preserve the invariant. -/
theorem C5_cleanup_on_terminal (r : Registry) (k : Nat) (m : Msg)
    (hInv : RegistryInv r) :
    (∀ w, lookupW r k = some w → w = WaiterState.empty) ∧
    ((try_deliver r k m).2.isSome = true →
      lookupW (try_deliver r k m).1 k = none ∧
      registerWait (try_deliver r k m).1 k =
        RegisterResult.registered ((k, WaiterState.empty) :: (try_deliver r k m).1)) ∧
    ((expireKey r k).2.isSome = true →
      lookupW (expireKey r k).1 k = none ∧
      registerWait (expireKey r k).1 k =
        RegisterResult.registered ((k, WaiterState.empty) :: (expireKey r k).1)) ∧
    ((cancelKey r k).2.isSome = true →
      lookupW (cancelKey r k).1 k = none ∧
      registerWait (cancelKey r k).1 k =
        RegisterResult.registered ((k, WaiterState.empty) :: (cancelKey r k).1)) ∧
    RegistryInv (try_deliver r k m).1 ∧
    RegistryInv (expireKey r k).1 ∧
    RegistryInv (cancelKey r k).1 ∧
    (∀ r', registerWait r k = RegisterResult.registered r' → RegistryInv r') := by
  refine ⟨fun w hw => lookupW_empty_of_inv hInv k w hw,
    (attemptKey_cleanup r k (Attempt.resolve m) hInv).1,
    (attemptKey_cleanup r k Attempt.expire hInv).1,
    (attemptKey_cleanup r k Attempt.cancel hInv).1,
    (attemptKey_cleanup r k (Attempt.resolve m) hInv).2,
    (attemptKey_cleanup r k Attempt.expire hInv).2,
    (attemptKey_cleanup r k Attempt.cancel hInv).2,
    fun r' hr => (registerWait_inv hInv k r' hr).1⟩

/-- Witness for C5: delivering to a registered key removes its entry. -/
theorem C5_witness :
    lookupW (try_deliver [(1, WaiterState.empty)] 1
      (Msg.mk 1 (some "t") [] none none)).1 1 = none :=
  (((C5_cleanup_on_terminal [(1, WaiterState.empty)] 1
      (Msg.mk 1 (some "t") [] none none)
      ⟨by intro e he; simpa using List.mem_singleton.mp he ▸ rfl,
       by simp⟩).2.1) rfl).1

/-- C7: non-interference across owner keys — delivering a message to key A
leaves the registry entry of every other key B unchanged, and a message from
a user with no active Waiter is routed normally with the registry
untouched. -/
theorem C7_non_interference (r : Registry) (b : Nat) (m m2 : Msg)
    (hb : b ≠ m.from_user_id) (h2 : lookupW r m2.from_user_id = none) :
    lookupW (try_deliver r m.from_user_id m).1 b = lookupW r b ∧
    lookupW (on_message r m).1 b = lookupW r b ∧
    on_message r m2 = (r, RoutingDecision.Continue) := by
  have hstep : lookupW (try_deliver r m.from_user_id m).1 b = lookupW r b := by
    unfold try_deliver attemptKey
    cases hlk : lookupW r m.from_user_id with
    | none => rfl
    | some w =>
      cases w with
      | empty => exact lookupW_removeKey_ne r m.from_user_id b hb
      | fulfilled m' => rfl
      | expired => rfl
      | cancelled => rfl
  have h3 : on_message r m2 = (r, RoutingDecision.Continue) := by
    unfold on_message try_deliver
    rw [attemptKey_of_lookup_none r m2.from_user_id (Attempt.resolve m2) h2]
    rfl
  refine ⟨hstep, ?_, h3⟩
  unfold on_message
  rcases hd : try_deliver r m.from_user_id m with ⟨r', out⟩
  rw [hd] at hstep
  exact hstep

/-- Witness for C7 at concrete keys 1 (delivered) and 2 (untouched). -/
theorem C7_witness :
    lookupW (try_deliver [(1, WaiterState.empty), (2, WaiterState.empty)] 1
        (Msg.mk 1 (some "t") [] none none)).1 2 =
      lookupW [(1, WaiterState.empty), (2, WaiterState.empty)] 2 :=
  (C7_non_interference [(1, WaiterState.empty), (2, WaiterState.empty)] 2
    (Msg.mk 1 (some "t") [] none none) (Msg.mk 3 none [] none none)
    (by decide) rfl).1

/-- C4, counterexample to the claim as stated: when the deadline elapses,
`wait_for` produces no ordinary return value at all — the timeout case of the
caller-visible result is the raised `TimeoutError` (`exnTimeout`), not a
`TimedOut` variant of a returned `Outcome` value; the handler's timeout reply
comes from its `except TimeoutError` clause. -/
theorem C4_counterexample :
    ordinaryReturn WaitForResult.exnTimeout = none ∧
    waitPhase "video" "f" WaitForResult.exnTimeout =
      [Action.reply MSG_timeout] :=
  ⟨rfl, rfl⟩

/-- C4 (amended): when the deadline elapses with no matching message,
`wait_for` signals the timeout by raising `TimeoutError` rather than by an
ordinary return value, and `handle_media_with_caption` handles it explicitly
in its `except TimeoutError` clause, replying with the timeout message and
sending no captioned media. -/
theorem C4_timeout_via_exception (m : Msg) (mt : String) (cr : Option String)
    (acts : List Action) (fid : String)
    (h : phase1 m mt cr = some (Phase1.proceed acts fid)) :
    handle_media_with_caption m mt cr WaitForResult.exnTimeout =
      some (acts ++ [Action.reply MSG_timeout]) ∧
    ordinaryReturn WaitForResult.exnTimeout = none := by
  refine ⟨?_, rfl⟩
  unfold handle_media_with_caption
  rw [h]
  rfl

/-- Witness for C4 (amended) at a concrete photo message. -/
theorem C4_witness :
    handle_media_with_caption (Msg.mk 9 none ["p"] none none) "photo" none
        WaitForResult.exnTimeout =
      some [Action.answer MSG_photo_received, Action.reply MSG_timeout] :=
  (C4_timeout_via_exception (Msg.mk 9 none ["p"] none none) "photo" none
    [Action.answer MSG_photo_received] "p" rfl).1

/-- C6: caller-level validation after delivery — when `wait_for` delivers a
response message, the handler re-sends the stored media with the caption
equal to the response text stripped of surrounding whitespace iff the text is
non-`None` and contains a non-whitespace character; otherwise it replies with
the invalid-input message and sends no captioned media. -/
theorem C6_caption_validation (m : Msg) (mt : String) (cr : Option String)
    (resp : Msg) (acts : List Action) (fid : String)
    (h : phase1 m mt cr = some (Phase1.proceed acts fid)) :
    ((∃ s, resp.text = some s ∧ ∃ c ∈ s.data, pyIsSpace c = false) →
      handle_media_with_caption m mt cr (WaitForResult.ok resp) =
        some (acts ++ [sendMediaAction mt fid (pyStrip (resp.text.getD ""))])) ∧
    ((¬ ∃ s, resp.text = some s ∧ ∃ c ∈ s.data, pyIsSpace c = false) →
      handle_media_with_caption m mt cr (WaitForResult.ok resp) =
        some (acts ++ [Action.reply MSG_invalid_input])) := by
  have hh : handle_media_with_caption m mt cr (WaitForResult.ok resp) =
      some (acts ++ waitPhase mt fid (WaitForResult.ok resp)) := by
    unfold handle_media_with_caption
    rw [h]
  constructor
  · intro hex
    have ht : pyTruthyText resp.text = true := (pyTruthyText_iff resp.text).mpr hex
    rw [hh]
    simp only [waitPhase, sendMediaAction, ht, Bool.not_true, Bool.false_eq_true,
      if_false]
    split_ifs <;> rfl
  · intro hnex
    have ht : pyTruthyText resp.text = false := by
      cases hpt : pyTruthyText resp.text
      · rfl
      · exact absurd ((pyTruthyText_iff resp.text).mp hpt) hnex
    rw [hh]
    simp [waitPhase, ht]

/-- Witness for C6: a delivered response " hi " yields the photo re-sent
with the stripped caption "hi". -/
theorem C6_witness :
    handle_media_with_caption (Msg.mk 3 none ["p"] none none) "photo" none
        (WaitForResult.ok (Msg.mk 3 (some " hi ") [] none none)) =
      some [Action.answer MSG_photo_received, Action.answerPhoto "p" "hi"] := by
  have h := (C6_caption_validation (Msg.mk 3 none ["p"] none none) "photo" none
      (Msg.mk 3 (some " hi ") [] none none) [Action.answer MSG_photo_received]
      "p" rfl).1 ⟨" hi ", rfl, 'h', by decide, by decide⟩
  exact h.trans (by decide)

/-- C8: `handle_document` dispatches a document as a photo iff it has a
truthy (non-`None`, non-empty) `file_name` whose lowercase form ends with
`.jpg`, `.jpeg` or `.png`; every other document is handled with media type
`document`. -/
theorem C8_document_dispatch (m : Msg) (d : Document) (cr : Option String)
    (wr : WaitForResult) (h : m.document = some d) :
    handle_document m cr wr =
      handle_media_with_caption m
        (if is_image_file_name d.file_name then "photo" else "document") cr wr ∧
    (is_image_file_name d.file_name = true ↔
      ∃ s, d.file_name = some s ∧ s.data ≠ [] ∧
        (pyEndsWith (pyLower s) ".jpg" = true ∨
         pyEndsWith (pyLower s) ".jpeg" = true ∨
         pyEndsWith (pyLower s) ".png" = true)) := by
  constructor
  · unfold handle_document
    rw [h]
    cases hi : is_image_file_name d.file_name <;> simp [hi]
  · cases hfn : d.file_name with
    | none => simp [is_image_file_name]
    | some s =>
      simp only [is_image_file_name, pyTruthyStr, Option.some.injEq]
      cases hse : s.data.isEmpty with
      | true =>
        have hnil : s.data = [] := List.isEmpty_iff.mp hse
        simp [hse, hnil]
      | false =>
        have hne : s.data ≠ [] := List.isEmpty_eq_false.mp hse
        simp [hse, hne, Bool.or_eq_true]
        exact or_assoc

/-- Witness for C8: an uppercase image name "A.JPG" is dispatched as a
photo. -/
theorem C8_witness :
    is_image_file_name (some "A.JPG") = true :=
  ((C8_document_dispatch
      (Msg.mk 4 none [] none (some (Document.mk "f" (some "A.JPG"))))
      (Document.mk "f" (some "A.JPG")) none WaitForResult.exnOther rfl).2).mpr
    ⟨"A.JPG", rfl, by decide, Or.inl (by decide)⟩

/-- C9: if `convert_document_to_photo` fails (returns `None`) for an image
sent as a document, `handle_media_with_caption` replies with the
invalid-input message and returns immediately — no acknowledgment message is
sent and `wait_for` is never reached (the result is the same for every wait
outcome). -/
theorem C9_convert_failure (m : Msg) (wr : WaitForResult) (h : m.photo = []) :
    handle_media_with_caption m "photo" none wr =
      some [Action.reply MSG_invalid_input] := by
  unfold handle_media_with_caption phase1
  rw [h]
  rfl

/-- Witness for C9 at a concrete document-image message; the wait outcome is
irrelevant because `wait_for` is never reached. -/
theorem C9_witness :
    handle_media_with_caption
        (Msg.mk 8 none [] none (some (Document.mk "d" (some "x.jpg"))))
        "photo" none WaitForResult.exnTimeout =
      some [Action.reply MSG_invalid_input] :=
  C9_convert_failure (Msg.mk 8 none [] none (some (Document.mk "d" (some "x.jpg"))))
    WaitForResult.exnTimeout rfl

/-- C10: the `/start` handler sends exactly two replies in order — first the
greeting embedding the sender's first name passed through HTML escaping, then
the fixed "Powered by @farazom" message; the escaped name contains no raw
`<` or `>`, so a name containing HTML markup cannot inject markup under the
bot's HTML parse mode. -/
theorem C10_start_two_messages (first_name : String) :
    start first_name =
      [Action.answer (start_greeting first_name),
       Action.answer "Powered by @farazom"] ∧
    start_greeting first_name =
      "👋 سلام " ++ html_escape first_name ++
        "\n\n📸 میتونی الان یه عکس یا یه ویدیو برام بفرستی 🎥" ∧
    ∀ c ∈ (html_escape first_name).data, c ≠ '<' ∧ c ≠ '>' := by
  refine ⟨rfl, rfl, ?_⟩
  intro c hc
  have hc2 : c ∈ first_name.data.flatMap html_escape_char := hc
  rcases List.mem_flatMap.mp hc2 with ⟨a, _, hmem⟩
  exact html_escape_char_no_markup a c hmem

/-- Witness for C10 at the markup-bearing name "<b>". -/
theorem C10_witness :
    start "<b>" =
      [Action.answer
        "👋 سلام &lt;b&gt;\n\n📸 میتونی الان یه عکس یا یه ویدیو برام بفرستی 🎥",
       Action.answer "Powered by @farazom"] ∧
    '<' ∉ (html_escape "<b>").data := by
  have h := C10_start_two_messages "<b>"
  refine ⟨?_, fun hm => (h.2.2 '<' hm).1 rfl⟩
  rw [h.1, h.2.1]
  decide

end MediaJoiner
